import Mathlib

/-!
Shallow embedding of the hybrid OCR routing core of the repository
(recipes/03-vision-ocr: `HybridOcrStrategy`, `SimpleReceiptDetector`,
type definitions from `types.ts`).

Numbers that are JavaScript `number`s carrying fractional values
(confidences, costs, rates) are modelled as rationals `ℚ`; monetary
amounts in satang are integers, durations are naturals.  Fallible
provider calls are modelled as `Except String OcrResult` values supplied
as inputs (the providers are external collaborators), and the mutable
instance state of `HybridOcrStrategy` (`metrics`, `attempts`) is passed
explicitly.  Each run additionally reports the ordered list of provider
invocations it performed, so that "provider X was (never) invoked" is
observable.
-/

/-- Provider identity, from `OcrAttempt.provider` in `types.ts`
(`'claude' | 'groq' | 'paddle'`). -/
inductive Provider where
  | claude
  | groq
  | paddle
deriving DecidableEq, Repr

/-- The normalized extraction result (`ReceiptOcrResult` /`OcrResult`):
the fields the routing core reads or forwards.  Monetary values are in
satang (integers); `confidence` is optional, as in the source. -/
structure OcrResult where
  amountSatang : Int
  vatAmountSatang : Option Int
  vendorName : Option String
  issueDate : Option String
  confidence : Option ℚ
deriving DecidableEq, Repr

/-- `OcrAttempt` from `types.ts`: one record of a single provider
invocation. -/
structure OcrAttempt where
  provider : Provider
  success : Bool
  cost : ℚ
  duration : Nat
  result : Option OcrResult
  error : Option String
deriving DecidableEq, Repr

/-- `HybridMetrics` from `types.ts`.  Counter fields are naturals,
costs and rates are rationals (`claudeFallbackRate` is incremented with
`++` in the source, so it is a counter). -/
structure HybridMetrics where
  totalReceipts : Nat
  simpleCount : Nat
  complexCount : Nat
  groqSuccessRate : ℚ
  claudeFallbackRate : Nat
  totalCost : ℚ
  avgCostPerReceipt : ℚ
  savingsVsClaudeOnly : ℚ
  manualReviewRate : ℚ
deriving DecidableEq, Repr

/-- `HybridStrategyConfig` from `types.ts`. -/
structure HybridStrategyConfig where
  simpleConfidenceThreshold : ℚ
  enableFallback : Bool
  maxGroqRetries : Nat
  enableMetrics : Bool
deriving DecidableEq, Repr

/-- The defaults filled in by the `HybridOcrStrategy` constructor. -/
def defaultConfig : HybridStrategyConfig where
  simpleConfidenceThreshold := 17/20
  enableFallback := true
  maxGroqRetries := 1
  enableMetrics := true

/-- The feature snapshot produced by
`SimpleReceiptDetector.extractFeatures` (the `features` field of
`ReceiptClassification` in `types.ts`). -/
structure Features where
  brightness : ℚ
  textDensity : ℚ
  hasStandardFormat : Bool
  hasHandwriting : Bool
  hasFading : Bool
deriving DecidableEq, Repr

/-- `ReceiptClassification` from `types.ts`. -/
structure ReceiptClassification where
  isSimple : Bool
  confidence : ℚ
  reason : Option String
  features : Option Features
deriving DecidableEq, Repr

/-- The configuration record of `SimpleReceiptDetector`. -/
structure DetectorConfig where
  brightnessThreshold : ℚ
  textDensityThreshold : ℚ
  minConfidence : ℚ
deriving DecidableEq, Repr

/-- Defaults from the `SimpleReceiptDetector` constructor. -/
def defaultDetectorConfig : DetectorConfig where
  brightnessThreshold := 3/5
  textDensityThreshold := 2/5
  minConfidence := 17/20

namespace SimpleReceiptDetector

/-- `SimpleReceiptDetector.evaluateSimplicity`: simple iff brightness
strictly above the threshold, standard format, no handwriting, not
faded.  (The source's `if (!features) return false` guard is for an
absent snapshot; `classify` always supplies one.) -/
def evaluateSimplicity (cfg : DetectorConfig) (f : Features) : Bool :=
  decide (cfg.brightnessThreshold < f.brightness) &&
    f.hasStandardFormat && !f.hasHandwriting && !f.hasFading

/-- `SimpleReceiptDetector.calculateConfidence`: weighted sum
(brightness 40%, text density 30%, standard format 30%), multiplicative
penalties (handwriting ×0.5, fading ×0.7), then `Math.min(confidence, 1)`. -/
def calculateConfidence (f : Features) : ℚ :=
  let c : ℚ := f.brightness * (2/5) + f.textDensity * (3/10) +
    (if f.hasStandardFormat then 1 else 0) * (3/10)
  let c : ℚ := if f.hasHandwriting then c * (1/2) else c
  let c : ℚ := if f.hasFading then c * (7/10) else c
  min c 1

/-- `SimpleReceiptDetector.generateReason`. -/
def generateReason (cfg : DetectorConfig) (f : Features) (isSimple : Bool) :
    String :=
  if isSimple then
    "Clear, standard format receipt - suitable for Groq parsing"
  else
    let reasons : List String :=
      (if f.brightness < cfg.brightnessThreshold then ["low brightness"] else [])
        ++ (if !f.hasStandardFormat then ["non-standard format"] else [])
        ++ (if f.hasHandwriting then ["handwritten"] else [])
        ++ (if f.hasFading then ["faded text"] else [])
    "Complex receipt (" ++ String.intercalate ", " reasons
      ++ ") - using Claude Vision"

/-- `SimpleReceiptDetector.classify`, as a function of the feature
snapshot.  In the source the snapshot is produced from the image by the
mock `extractFeatures`; the claims about the classifier quantify over
snapshots, so the (mock) image analysis stays abstract. -/
def classify (cfg : DetectorConfig) (f : Features) : ReceiptClassification where
  isSimple := evaluateSimplicity cfg f
  confidence := calculateConfidence f
  reason := some (generateReason cfg f (evaluateSimplicity cfg f))
  features := some f

end SimpleReceiptDetector

namespace HybridOcrStrategy

/-- The mutable instance state of `HybridOcrStrategy`: the metrics
object and the attempt history. -/
structure State where
  metrics : HybridMetrics
  attempts : List OcrAttempt
deriving DecidableEq, Repr

/-- `HybridOcrStrategy.initMetrics`: all counters, costs and rates
start at zero. -/
def initMetrics : HybridMetrics where
  totalReceipts := 0
  simpleCount := 0
  complexCount := 0
  groqSuccessRate := 0
  claudeFallbackRate := 0
  totalCost := 0
  avgCostPerReceipt := 0
  savingsVsClaudeOnly := 0
  manualReviewRate := 0

/-- The state of a freshly constructed strategy (`metrics =
initMetrics`, empty attempt history). -/
def initState : State where
  metrics := initMetrics
  attempts := []

/-- `HybridOcrStrategy.updateMetrics`: recompute the derived rates from
the attempt history and the running totals.  Each rate is guarded by a
ternary against a zero denominator, as in the source. -/
def updateMetrics (attempts : List OcrAttempt) (m : HybridMetrics) :
    HybridMetrics :=
  let groqAttempts := attempts.filter (fun a => a.provider = Provider.groq)
  let groqSuccess := (groqAttempts.filter (fun a => a.success)).length
  let groqSuccessRate : ℚ :=
    if 0 < groqAttempts.length then
      (groqSuccess : ℚ) / (groqAttempts.length : ℚ)
    else 0
  let avgCostPerReceipt : ℚ :=
    if 0 < m.totalReceipts then m.totalCost / (m.totalReceipts : ℚ) else 0
  let claudeOnlyCost : ℚ := (m.totalReceipts : ℚ) * (1/2)
  let savingsVsClaudeOnly := claudeOnlyCost - m.totalCost
  let lowConfidenceCount :=
    (attempts.filter (fun a =>
      a.result.isSome &&
        decide (((a.result.map (fun r => r.confidence.getD 0)).getD 0) < 19/20))).length
  let manualReviewRate : ℚ :=
    if 0 < m.totalReceipts then
      (lowConfidenceCount : ℚ) / (m.totalReceipts : ℚ)
    else 0
  { m with
    groqSuccessRate := groqSuccessRate
    avgCostPerReceipt := avgCostPerReceipt
    savingsVsClaudeOnly := savingsVsClaudeOnly
    manualReviewRate := manualReviewRate }

/-- `HybridOcrStrategy.recordAttempt`: a no-op when metrics are
disabled; otherwise append the attempt, bump `totalReceipts` and
`totalCost`, and recompute the derived rates. -/
def recordAttempt (cfg : HybridStrategyConfig) (a : OcrAttempt) (s : State) :
    State :=
  if !cfg.enableMetrics then s
  else
    let attempts := s.attempts ++ [a]
    let m := { s.metrics with
      totalReceipts := s.metrics.totalReceipts + 1
      totalCost := s.metrics.totalCost + a.cost }
    { metrics := updateMetrics attempts m, attempts := attempts }

/-- The outcome of one `extractReceipt` run: the returned result or the
propagated error, the updated instance state, and the ordered list of
provider invocations performed (the observable calls to the external
collaborators). -/
structure RunOut where
  result : Except String OcrResult
  state : State
  calls : List Provider
deriving Repr

/-- `HybridOcrStrategy.processComplexReceipt`: bump `complexCount`,
invoke the Claude adapter (outcome `claudeOut`, wall-clock duration
`claudeDur`), and on success record a successful claude attempt at cost
0.50 and return the result.  The source has no try/catch here: a
failing Claude call records no attempt and the error propagates. -/
def processComplexReceipt (cfg : HybridStrategyConfig)
    (claudeOut : Except String OcrResult) (claudeDur : Nat) (s : State) :
    RunOut :=
  let s := { s with metrics :=
    { s.metrics with complexCount := s.metrics.complexCount + 1 } }
  match claudeOut with
  | Except.ok r =>
      { result := Except.ok r
        state := recordAttempt cfg
          { provider := Provider.claude, success := true, cost := 1/2,
            duration := claudeDur, result := some r, error := none } s
        calls := [Provider.claude] }
  | Except.error e =>
      { result := Except.error e, state := s, calls := [Provider.claude] }

/-- `HybridOcrStrategy.processSimpleReceipt`: bump `simpleCount`,
invoke the Groq adapter (outcome `groqOut`, duration `groqDur`).  On
success record a successful groq attempt at cost 0.05 and return.  On
failure record a failed groq attempt (cost 0, duration 0, the error
message), then either fall back to the Claude path (bumping
`claudeFallbackRate`) when fallback is enabled, or rethrow the Groq
error. -/
def processSimpleReceipt (cfg : HybridStrategyConfig)
    (groqOut : Except String OcrResult) (groqDur : Nat)
    (claudeOut : Except String OcrResult) (claudeDur : Nat) (s : State) :
    RunOut :=
  let s := { s with metrics :=
    { s.metrics with simpleCount := s.metrics.simpleCount + 1 } }
  match groqOut with
  | Except.ok r =>
      { result := Except.ok r
        state := recordAttempt cfg
          { provider := Provider.groq, success := true, cost := 1/20,
            duration := groqDur, result := some r, error := none } s
        calls := [Provider.groq] }
  | Except.error e =>
      let s := recordAttempt cfg
        { provider := Provider.groq, success := false, cost := 0,
          duration := 0, result := none, error := some e } s
      if cfg.enableFallback then
        let s := { s with metrics := { s.metrics with
          claudeFallbackRate := s.metrics.claudeFallbackRate + 1 } }
        let o := processComplexReceipt cfg claudeOut claudeDur s
        { o with calls := Provider.groq :: o.calls }
      else
        { result := Except.error e, state := s, calls := [Provider.groq] }

/-- `HybridOcrStrategy.extractReceipt`: classify, then route.  The
classification verdict is deterministic in the input image (the
detector pipeline is modelled above), so it is passed as the `cls`
argument; the provider outcomes and durations are likewise inputs.
Routes to the Groq path iff `cls.isSimple` and `cls.confidence` is at
least the configured simple-confidence threshold. -/
def extractReceipt (cfg : HybridStrategyConfig)
    (cls : ReceiptClassification)
    (groqOut : Except String OcrResult) (groqDur : Nat)
    (claudeOut : Except String OcrResult) (claudeDur : Nat) (s : State) :
    RunOut :=
  if cls.isSimple && decide (cfg.simpleConfidenceThreshold ≤ cls.confidence)
  then processSimpleReceipt cfg groqOut groqDur claudeOut claudeDur s
  else processComplexReceipt cfg claudeOut claudeDur s

/-- `HybridOcrStrategy.getMetrics`: a copy of the current metrics. -/
def getMetrics (s : State) : HybridMetrics := s.metrics

/-- `HybridOcrStrategy.getAttempts`: a copy of the attempt history. -/
def getAttempts (s : State) : List OcrAttempt := s.attempts

/-- `HybridOcrStrategy.resetMetrics`: metrics back to `initMetrics`,
attempt history cleared. -/
def resetMetrics (_s : State) : State where
  metrics := initMetrics
  attempts := []

/-- The failed groq attempt recorded on a cheap-provider failure. -/
def groqFailAttempt (e : String) : OcrAttempt where
  provider := Provider.groq
  success := false
  cost := 0
  duration := 0
  result := none
  error := some e

/-- The successful claude attempt recorded on a precise-provider
success. -/
def claudeOkAttempt (r : OcrResult) (dur : Nat) : OcrAttempt where
  provider := Provider.claude
  success := true
  cost := 1/2
  duration := dur
  result := some r
  error := none

/-- The successful groq attempt recorded on a cheap-provider success. -/
def groqOkAttempt (r : OcrResult) (dur : Nat) : OcrAttempt where
  provider := Provider.groq
  success := true
  cost := 1/20
  duration := dur
  result := some r
  error := none

/-- The routing condition of `extractReceipt`. -/
def routesSimple (cfg : HybridStrategyConfig)
    (cls : ReceiptClassification) : Prop :=
  cls.isSimple = true ∧ cfg.simpleConfidenceThreshold ≤ cls.confidence

instance (cfg : HybridStrategyConfig) (cls : ReceiptClassification) :
    Decidable (routesSimple cfg cls) := by
  unfold routesSimple; infer_instance

end HybridOcrStrategy

/-- The spec's description of the confidence computation: the weighted
sum (brightness 40%, text density 30%, layout-match 30%) with the
multiplicative handwriting (×0.5) and fading (×0.7) penalties, before
any clamping.  Stated from the spec's words, to be compared with
`SimpleReceiptDetector.calculateConfidence`. -/
def rawWeightedConfidence (f : Features) : ℚ :=
  (f.brightness * (2/5) + f.textDensity * (3/10) +
      (if f.hasStandardFormat then 1 else 0) * (3/10)) *
    (if f.hasHandwriting then 1/2 else 1) *
    (if f.hasFading then 7/10 else 1)

/-- The feature snapshot of the spec's end-to-end scenario A. -/
def featuresA : Features where
  brightness := 17/20
  textDensity := 7/10
  hasStandardFormat := true
  hasHandwriting := false
  hasFading := false

/-- A feature snapshot with a negative brightness estimate (the
`Features` fields are unconstrained JavaScript numbers). -/
def featuresNeg : Features where
  brightness := -1
  textDensity := 0
  hasStandardFormat := false
  hasHandwriting := false
  hasFading := false

/-- A classification verdict that routes to the cheap path under the
default configuration (simple, confidence at the 0.85 threshold). -/
def clsSimpleHigh : ReceiptClassification where
  isSimple := true
  confidence := 17/20
  reason := none
  features := none

/-- A classification verdict that routes to the precise path (complex,
zero confidence). -/
def clsComplexLow : ReceiptClassification where
  isSimple := false
  confidence := 0
  reason := none
  features := none

/-- A concrete precise-provider result used in witnesses. -/
def resultClaude : OcrResult where
  amountSatang := 35000
  vatAmountSatang := none
  vendorName := none
  issueDate := none
  confidence := some (19/20)

/-- A concrete cheap-provider result used in witnesses. -/
def resultGroq : OcrResult where
  amountSatang := 8560
  vatAmountSatang := some 560
  vendorName := some "7-Eleven Mock"
  issueDate := some "2026-01-22"
  confidence := some (22/25)

/-- The default configuration with fallback disabled. -/
def noFallbackConfig : HybridStrategyConfig :=
  { defaultConfig with enableFallback := false }

/-- The default configuration with metrics disabled. -/
def noMetricsConfig : HybridStrategyConfig :=
  { defaultConfig with enableMetrics := false }

/-- C7: for every feature snapshot, the classifier's verdict has
`isSimple` true if and only if brightness strictly exceeds the
configured brightness threshold, the standard-format flag is set, and
neither the handwriting nor the fading flag is set. -/
theorem SimpleReceiptDetector.isSimple_iff (cfg : DetectorConfig) (f : Features) :
    (SimpleReceiptDetector.classify cfg f).isSimple = true ↔
      (cfg.brightnessThreshold < f.brightness ∧ f.hasStandardFormat = true ∧
        f.hasHandwriting = false ∧ f.hasFading = false) := by
  simp [SimpleReceiptDetector.classify, SimpleReceiptDetector.evaluateSimplicity,
    Bool.and_eq_true, decide_eq_true_eq, Bool.not_eq_true', and_assoc]

/-- C6 counterexample: the confidence is not clamped below: on a
feature snapshot with a negative brightness estimate the returned
confidence is -0.4, outside [0,1]. -/
theorem SimpleReceiptDetector.confidence_below_zero :
    SimpleReceiptDetector.calculateConfidence featuresNeg = -(2/5) ∧
      SimpleReceiptDetector.calculateConfidence featuresNeg < 0 := by
  constructor <;>
    norm_num [SimpleReceiptDetector.calculateConfidence, featuresNeg, min_def]

/-- C6 (amended): the classifier's confidence equals the weighted sum
brightness × 0.4 + textDensity × 0.3 + layout × 0.3 with the
handwriting (×0.5) and fading (×0.7) penalties, capped above at 1 (the
source applies `Math.min(confidence, 1)` only); when brightness and
text density lie within [0,1] the result does lie within [0,1]. -/
theorem SimpleReceiptDetector.confidence_min_formula (f : Features)
    (hb0 : 0 ≤ f.brightness) (_hb1 : f.brightness ≤ 1)
    (ht0 : 0 ≤ f.textDensity) (_ht1 : f.textDensity ≤ 1) :
    SimpleReceiptDetector.calculateConfidence f = min (rawWeightedConfidence f) 1 ∧
      0 ≤ SimpleReceiptDetector.calculateConfidence f ∧
      SimpleReceiptDetector.calculateConfidence f ≤ 1 := by
  have heq : SimpleReceiptDetector.calculateConfidence f
      = min (rawWeightedConfidence f) 1 := by
    unfold SimpleReceiptDetector.calculateConfidence rawWeightedConfidence
    cases hhw : f.hasHandwriting <;> cases hfade : f.hasFading <;>
      simp [hhw, hfade, mul_one]
  have hraw0 : 0 ≤ rawWeightedConfidence f := by
    unfold rawWeightedConfidence
    have h1 : 0 ≤ f.brightness * (2/5) := mul_nonneg hb0 (by norm_num)
    have h2 : 0 ≤ f.textDensity * (3/10) := mul_nonneg ht0 (by norm_num)
    have h3 : (0:ℚ) ≤ (if f.hasStandardFormat then 1 else 0) * (3/10) := by
      split_ifs <;> norm_num
    refine mul_nonneg (mul_nonneg ?_ ?_) ?_
    · exact add_nonneg (add_nonneg h1 h2) h3
    · split_ifs <;> norm_num
    · split_ifs <;> norm_num
  refine ⟨heq, ?_, ?_⟩
  · rw [heq]
    exact le_min hraw0 (by norm_num)
  · rw [heq]
    exact min_le_right _ _

/-- Witness for C6 (amended), at the snapshot with brightness 0.5 and
text density 0.5. -/
theorem SimpleReceiptDetector.confidence_min_formula_witness :
    (0 ≤ (1:ℚ)/2 ∧ (1:ℚ)/2 ≤ 1) ∧
      (SimpleReceiptDetector.calculateConfidence ⟨1/2, 1/2, true, false, false⟩
          = min (rawWeightedConfidence ⟨1/2, 1/2, true, false, false⟩) 1 ∧
        0 ≤ SimpleReceiptDetector.calculateConfidence ⟨1/2, 1/2, true, false, false⟩ ∧
        SimpleReceiptDetector.calculateConfidence ⟨1/2, 1/2, true, false, false⟩ ≤ 1) :=
  ⟨by norm_num,
    SimpleReceiptDetector.confidence_min_formula ⟨1/2, 1/2, true, false, false⟩
      (by norm_num) (by norm_num) (by norm_num) (by norm_num)⟩

/-- C8 counterexample: on the spec's scenario-A snapshot the
classifier's confidence is 0.85, not the 0.95 the spec computes
(0.85×0.4 + 0.7×0.3 + 1×0.3 = 0.85). -/
theorem SimpleReceiptDetector.scenarioA_confidence_value :
    (SimpleReceiptDetector.classify defaultDetectorConfig featuresA).confidence = 17/20 ∧
      (SimpleReceiptDetector.classify defaultDetectorConfig featuresA).confidence ≠ 19/20 := by
  constructor <;>
    norm_num [SimpleReceiptDetector.classify,
      SimpleReceiptDetector.calculateConfidence, featuresA, min_def]

/-- C8 (amended): on the scenario-A snapshot {brightness 0.85, text
density 0.7, standard format, no handwriting, no fading} the verdict is
simple and the confidence is exactly 0.85, which meets the 0.85
routing threshold. -/
theorem SimpleReceiptDetector.scenarioA_simple :
    (SimpleReceiptDetector.classify defaultDetectorConfig featuresA).isSimple = true ∧
      (SimpleReceiptDetector.classify defaultDetectorConfig featuresA).confidence = 17/20 ∧
      17/20 ≤ (SimpleReceiptDetector.classify defaultDetectorConfig featuresA).confidence := by
  refine ⟨?_, ?_, ?_⟩ <;>
    norm_num [SimpleReceiptDetector.classify, SimpleReceiptDetector.evaluateSimplicity,
      SimpleReceiptDetector.calculateConfidence, featuresA, defaultDetectorConfig,
      min_def]

/-- C9: a metrics snapshot of a freshly constructed or freshly reset
strategy reports every rate (groqSuccessRate, avgCostPerReceipt,
manualReviewRate) as 0, and the rate recomputation itself yields 0 on
an empty history with zero totals (each division is guarded). -/
theorem HybridOcrStrategy.fresh_snapshot_rates_zero (s : HybridOcrStrategy.State) :
    HybridOcrStrategy.getMetrics (HybridOcrStrategy.resetMetrics s)
        = HybridOcrStrategy.initMetrics ∧
      (HybridOcrStrategy.getMetrics (HybridOcrStrategy.resetMetrics s)).groqSuccessRate = 0 ∧
      (HybridOcrStrategy.getMetrics (HybridOcrStrategy.resetMetrics s)).avgCostPerReceipt = 0 ∧
      (HybridOcrStrategy.getMetrics (HybridOcrStrategy.resetMetrics s)).manualReviewRate = 0 ∧
      (HybridOcrStrategy.getMetrics HybridOcrStrategy.initState).groqSuccessRate = 0 ∧
      (HybridOcrStrategy.getMetrics HybridOcrStrategy.initState).avgCostPerReceipt = 0 ∧
      (HybridOcrStrategy.getMetrics HybridOcrStrategy.initState).manualReviewRate = 0 ∧
      (HybridOcrStrategy.updateMetrics [] HybridOcrStrategy.initMetrics).groqSuccessRate = 0 ∧
      (HybridOcrStrategy.updateMetrics [] HybridOcrStrategy.initMetrics).avgCostPerReceipt = 0 ∧
      (HybridOcrStrategy.updateMetrics [] HybridOcrStrategy.initMetrics).manualReviewRate = 0 := by
  refine ⟨rfl, rfl, rfl, rfl, rfl, rfl, rfl, ?_, ?_, ?_⟩ <;>
    simp [HybridOcrStrategy.updateMetrics, HybridOcrStrategy.initMetrics]

theorem HybridOcrStrategy.routesSimple_iff_cond (cfg : HybridStrategyConfig)
    (cls : ReceiptClassification) :
    (cls.isSimple && decide (cfg.simpleConfidenceThreshold ≤ cls.confidence)) = true
      ↔ HybridOcrStrategy.routesSimple cfg cls := by
  simp [HybridOcrStrategy.routesSimple]

theorem HybridOcrStrategy.processComplexReceipt_calls (cfg : HybridStrategyConfig)
    (cOut : Except String OcrResult) (cd : Nat) (s : HybridOcrStrategy.State) :
    (HybridOcrStrategy.processComplexReceipt cfg cOut cd s).calls = [Provider.claude] := by
  cases cOut <;> simp [HybridOcrStrategy.processComplexReceipt]

theorem HybridOcrStrategy.processComplexReceipt_attempts (cfg : HybridStrategyConfig)
    (cOut : Except String OcrResult) (cd : Nat) (s : HybridOcrStrategy.State) :
    ∃ t, (HybridOcrStrategy.processComplexReceipt cfg cOut cd s).state.attempts
        = s.attempts ++ t ∧ ∀ a ∈ t, a.provider = Provider.claude := by
  cases cOut with
  | ok r =>
      by_cases hm : cfg.enableMetrics
      · refine ⟨[HybridOcrStrategy.claudeOkAttempt r cd], ?_, ?_⟩
        · simp [HybridOcrStrategy.processComplexReceipt,
            HybridOcrStrategy.recordAttempt, hm, HybridOcrStrategy.claudeOkAttempt]
        · simp [HybridOcrStrategy.claudeOkAttempt]
      · refine ⟨[], ?_, by simp⟩
        simp [HybridOcrStrategy.processComplexReceipt,
          HybridOcrStrategy.recordAttempt, hm]
  | error e =>
      refine ⟨[], ?_, by simp⟩
      simp [HybridOcrStrategy.processComplexReceipt]

theorem HybridOcrStrategy.processSimpleReceipt_calls_head (cfg : HybridStrategyConfig)
    (gOut : Except String OcrResult) (gd : Nat)
    (cOut : Except String OcrResult) (cd : Nat) (s : HybridOcrStrategy.State) :
    (HybridOcrStrategy.processSimpleReceipt cfg gOut gd cOut cd s).calls.head?
      = some Provider.groq := by
  cases gOut with
  | ok r => simp [HybridOcrStrategy.processSimpleReceipt]
  | error e =>
      by_cases hf : cfg.enableFallback <;>
        simp [HybridOcrStrategy.processSimpleReceipt, hf]

/-- C3: `extractReceipt` routes to the cheap (groq) path iff the
verdict is simple with confidence at least the configured threshold;
otherwise the precise (claude) provider is invoked directly and every
attempt appended to the history for that request is a claude attempt
(no cheap attempt is recorded). -/
theorem HybridOcrStrategy.routing_iff (cfg : HybridStrategyConfig)
    (cls : ReceiptClassification) (gOut : Except String OcrResult) (gd : Nat)
    (cOut : Except String OcrResult) (cd : Nat) (s : HybridOcrStrategy.State)
    (o : HybridOcrStrategy.RunOut)
    (ho : HybridOcrStrategy.extractReceipt cfg cls gOut gd cOut cd s = o) :
    (o.calls.head? = some Provider.groq ↔ HybridOcrStrategy.routesSimple cfg cls) ∧
      (¬ HybridOcrStrategy.routesSimple cfg cls →
        o.calls = [Provider.claude] ∧
          ∃ t, o.state.attempts = s.attempts ++ t ∧
            ∀ a ∈ t, a.provider = Provider.claude) := by
  subst ho
  by_cases hr : HybridOcrStrategy.routesSimple cfg cls
  · have hc := (HybridOcrStrategy.routesSimple_iff_cond cfg cls).mpr hr
    constructor
    · rw [HybridOcrStrategy.extractReceipt, if_pos hc]
      simp [HybridOcrStrategy.processSimpleReceipt_calls_head, hr]
    · intro h
      exact absurd hr h
  · have hc : (cls.isSimple && decide (cfg.simpleConfidenceThreshold ≤ cls.confidence)) ≠ true := by
      intro h
      exact hr ((HybridOcrStrategy.routesSimple_iff_cond cfg cls).mp h)
    rw [HybridOcrStrategy.extractReceipt, if_neg hc]
    refine ⟨?_, fun _ => ⟨HybridOcrStrategy.processComplexReceipt_calls cfg cOut cd s,
      HybridOcrStrategy.processComplexReceipt_attempts cfg cOut cd s⟩⟩
    simp [HybridOcrStrategy.processComplexReceipt_calls, hr]

/-- Witness for C3: a complex verdict routes directly to claude. -/
theorem HybridOcrStrategy.routing_iff_witness :
    ((HybridOcrStrategy.extractReceipt defaultConfig clsComplexLow
          (Except.error "unused") 0 (Except.ok resultClaude) 5
          HybridOcrStrategy.initState).calls.head? = some Provider.groq
        ↔ HybridOcrStrategy.routesSimple defaultConfig clsComplexLow) ∧
      (¬ HybridOcrStrategy.routesSimple defaultConfig clsComplexLow →
        (HybridOcrStrategy.extractReceipt defaultConfig clsComplexLow
            (Except.error "unused") 0 (Except.ok resultClaude) 5
            HybridOcrStrategy.initState).calls = [Provider.claude] ∧
          ∃ t, (HybridOcrStrategy.extractReceipt defaultConfig clsComplexLow
              (Except.error "unused") 0 (Except.ok resultClaude) 5
              HybridOcrStrategy.initState).state.attempts
              = HybridOcrStrategy.initState.attempts ++ t ∧
            ∀ a ∈ t, a.provider = Provider.claude) :=
  HybridOcrStrategy.routing_iff defaultConfig clsComplexLow
    (Except.error "unused") 0 (Except.ok resultClaude) 5
    HybridOcrStrategy.initState _ rfl

/-- C1: when the request routes to the cheap path, the groq call fails,
fallback is enabled (metrics recording on, as in the default
configuration) and the claude call succeeds, exactly two attempts are
appended for the request — a failed groq attempt, then a successful
claude attempt — and the returned result is the claude result. -/
theorem HybridOcrStrategy.fallback_two_attempts (cfg : HybridStrategyConfig)
    (cls : ReceiptClassification) (e : String) (r : OcrResult) (gd cd : Nat)
    (s : HybridOcrStrategy.State) (o : HybridOcrStrategy.RunOut)
    (ho : HybridOcrStrategy.extractReceipt cfg cls (Except.error e) gd
        (Except.ok r) cd s = o)
    (hm : cfg.enableMetrics = true) (hf : cfg.enableFallback = true)
    (hr : HybridOcrStrategy.routesSimple cfg cls) :
    o.state.attempts = s.attempts
        ++ [HybridOcrStrategy.groqFailAttempt e, HybridOcrStrategy.claudeOkAttempt r cd] ∧
      o.result = Except.ok r ∧
      o.calls = [Provider.groq, Provider.claude] := by
  subst ho
  have hc := (HybridOcrStrategy.routesSimple_iff_cond cfg cls).mpr hr
  rw [HybridOcrStrategy.extractReceipt, if_pos hc]
  simp [HybridOcrStrategy.processSimpleReceipt, HybridOcrStrategy.recordAttempt,
    hm, hf, HybridOcrStrategy.processComplexReceipt,
    HybridOcrStrategy.groqFailAttempt, HybridOcrStrategy.claudeOkAttempt]

/-- Witness for C1, at a simple verdict with confidence 0.85, a failing
groq call and a succeeding claude call from the fresh state. -/
theorem HybridOcrStrategy.fallback_two_attempts_witness :
    (defaultConfig.enableMetrics = true ∧ defaultConfig.enableFallback = true ∧
        HybridOcrStrategy.routesSimple defaultConfig clsSimpleHigh) ∧
      ((HybridOcrStrategy.extractReceipt defaultConfig clsSimpleHigh
            (Except.error "groq failed") 0 (Except.ok resultClaude) 7
            HybridOcrStrategy.initState).state.attempts
          = HybridOcrStrategy.initState.attempts
            ++ [HybridOcrStrategy.groqFailAttempt "groq failed",
              HybridOcrStrategy.claudeOkAttempt resultClaude 7] ∧
        (HybridOcrStrategy.extractReceipt defaultConfig clsSimpleHigh
            (Except.error "groq failed") 0 (Except.ok resultClaude) 7
            HybridOcrStrategy.initState).result = Except.ok resultClaude ∧
        (HybridOcrStrategy.extractReceipt defaultConfig clsSimpleHigh
            (Except.error "groq failed") 0 (Except.ok resultClaude) 7
            HybridOcrStrategy.initState).calls
          = [Provider.groq, Provider.claude]) :=
  ⟨⟨rfl, rfl, rfl, le_refl _⟩,
    HybridOcrStrategy.fallback_two_attempts defaultConfig clsSimpleHigh
      "groq failed" resultClaude 0 7 HybridOcrStrategy.initState _ rfl rfl rfl
      ⟨rfl, le_refl _⟩⟩

/-- C5: when the request routes to the cheap path, fallback is disabled
(metrics recording on) and the groq call fails, the run fails with the
groq error, exactly one attempt — the failed groq attempt — is appended,
and the claude provider is never invoked. -/
theorem HybridOcrStrategy.no_fallback_single_attempt (cfg : HybridStrategyConfig)
    (cls : ReceiptClassification) (e : String)
    (gd : Nat) (cOut : Except String OcrResult) (cd : Nat)
    (s : HybridOcrStrategy.State) (o : HybridOcrStrategy.RunOut)
    (ho : HybridOcrStrategy.extractReceipt cfg cls (Except.error e) gd cOut cd s = o)
    (hm : cfg.enableMetrics = true) (hf : cfg.enableFallback = false)
    (hr : HybridOcrStrategy.routesSimple cfg cls) :
    o.result = Except.error e ∧
      o.state.attempts = s.attempts ++ [HybridOcrStrategy.groqFailAttempt e] ∧
      o.calls = [Provider.groq] ∧
      Provider.claude ∉ o.calls := by
  subst ho
  have hc := (HybridOcrStrategy.routesSimple_iff_cond cfg cls).mpr hr
  rw [HybridOcrStrategy.extractReceipt, if_pos hc]
  simp [HybridOcrStrategy.processSimpleReceipt, HybridOcrStrategy.recordAttempt,
    hm, hf, HybridOcrStrategy.groqFailAttempt]

/-- Witness for C5, at a simple verdict with fallback disabled and a
failing groq call from the fresh state. -/
theorem HybridOcrStrategy.no_fallback_single_attempt_witness :
    (noFallbackConfig.enableMetrics = true ∧
        noFallbackConfig.enableFallback = false ∧
        HybridOcrStrategy.routesSimple noFallbackConfig clsSimpleHigh) ∧
      ((HybridOcrStrategy.extractReceipt noFallbackConfig clsSimpleHigh
            (Except.error "groq failed") 0 (Except.ok resultClaude) 7
            HybridOcrStrategy.initState).result = Except.error "groq failed" ∧
        (HybridOcrStrategy.extractReceipt noFallbackConfig clsSimpleHigh
            (Except.error "groq failed") 0 (Except.ok resultClaude) 7
            HybridOcrStrategy.initState).state.attempts
          = HybridOcrStrategy.initState.attempts
            ++ [HybridOcrStrategy.groqFailAttempt "groq failed"] ∧
        (HybridOcrStrategy.extractReceipt noFallbackConfig clsSimpleHigh
            (Except.error "groq failed") 0 (Except.ok resultClaude) 7
            HybridOcrStrategy.initState).calls = [Provider.groq] ∧
        Provider.claude ∉ (HybridOcrStrategy.extractReceipt noFallbackConfig
            clsSimpleHigh (Except.error "groq failed") 0 (Except.ok resultClaude) 7
            HybridOcrStrategy.initState).calls) :=
  ⟨⟨rfl, rfl, rfl, le_refl _⟩,
    HybridOcrStrategy.no_fallback_single_attempt noFallbackConfig clsSimpleHigh
      "groq failed" 0 (Except.ok resultClaude) 7 HybridOcrStrategy.initState _
      rfl rfl rfl ⟨rfl, le_refl _⟩⟩

/-- C2 counterexample: under the default configuration, a request
routed directly to the precise provider whose claude call fails appends
no attempt at all (the source has no try/catch around the claude call),
the error propagates raw, and `totalReceipts` stays 0. -/
theorem HybridOcrStrategy.precise_failure_no_attempt :
    (HybridOcrStrategy.extractReceipt defaultConfig clsComplexLow
        (Except.error "groq unused") 0 (Except.error "claude boom") 5
        HybridOcrStrategy.initState).state.attempts = [] ∧
      (HybridOcrStrategy.extractReceipt defaultConfig clsComplexLow
        (Except.error "groq unused") 0 (Except.error "claude boom") 5
        HybridOcrStrategy.initState).result = Except.error "claude boom" ∧
      (HybridOcrStrategy.extractReceipt defaultConfig clsComplexLow
        (Except.error "groq unused") 0 (Except.error "claude boom") 5
        HybridOcrStrategy.initState).state.metrics.totalReceipts = 0 := by
  refine ⟨?_, ?_, ?_⟩ <;>
    norm_num [HybridOcrStrategy.extractReceipt,
      HybridOcrStrategy.processSimpleReceipt,
      HybridOcrStrategy.processComplexReceipt, HybridOcrStrategy.recordAttempt,
      defaultConfig, clsComplexLow, HybridOcrStrategy.initState,
      HybridOcrStrategy.initMetrics]

/-- C2 (amended): with metrics recording on, a successful run appends
at least one attempt; a failed run surfaces the last-invoked provider's
error, and the attempts appended before the failure propagates are:
the failed groq attempt when the cheap path failed (with or without a
subsequent claude fallback failure), and nothing when the request was
routed directly to the precise provider. -/
theorem HybridOcrStrategy.failure_attempt_characterization
    (cfg : HybridStrategyConfig) (cls : ReceiptClassification)
    (gOut : Except String OcrResult) (gd : Nat)
    (cOut : Except String OcrResult) (cd : Nat)
    (s : HybridOcrStrategy.State) (o : HybridOcrStrategy.RunOut)
    (ho : HybridOcrStrategy.extractReceipt cfg cls gOut gd cOut cd s = o)
    (hm : cfg.enableMetrics = true) :
    (∀ r, o.result = Except.ok r →
        s.attempts.length + 1 ≤ o.state.attempts.length) ∧
      (∀ e, o.result = Except.error e →
        (gOut = Except.error e ∧ cfg.enableFallback = false ∧
            o.calls = [Provider.groq] ∧
            o.state.attempts = s.attempts ++ [HybridOcrStrategy.groqFailAttempt e]) ∨
          ((∃ e2, gOut = Except.error e2 ∧
              o.state.attempts = s.attempts ++ [HybridOcrStrategy.groqFailAttempt e2]) ∧
            cOut = Except.error e ∧
            o.calls = [Provider.groq, Provider.claude]) ∨
          (cOut = Except.error e ∧ o.calls = [Provider.claude] ∧
            o.state.attempts = s.attempts)) := by
  subst ho
  by_cases hc : (cls.isSimple && decide (cfg.simpleConfidenceThreshold ≤ cls.confidence)) = true
  · rw [HybridOcrStrategy.extractReceipt, if_pos hc]
    cases gOut with
    | ok r =>
        constructor
        · intro r2 _
          simp [HybridOcrStrategy.processSimpleReceipt,
            HybridOcrStrategy.recordAttempt, hm]
        · intro e he
          simp [HybridOcrStrategy.processSimpleReceipt] at he
    | error e =>
        cases hf : cfg.enableFallback with
        | false =>
            constructor
            · intro r2 h2
              simp [HybridOcrStrategy.processSimpleReceipt, hf] at h2
            · intro e2 he2
              simp [HybridOcrStrategy.processSimpleReceipt, hf] at he2
              subst he2
              left
              refine ⟨rfl, rfl, ?_, ?_⟩ <;>
                simp [HybridOcrStrategy.processSimpleReceipt, hf,
                  HybridOcrStrategy.recordAttempt, hm,
                  HybridOcrStrategy.groqFailAttempt]
        | true =>
            cases cOut with
            | ok r =>
                constructor
                · intro r2 _
                  simp [HybridOcrStrategy.processSimpleReceipt, hf,
                    HybridOcrStrategy.processComplexReceipt,
                    HybridOcrStrategy.recordAttempt, hm]
                · intro e2 he2
                  simp [HybridOcrStrategy.processSimpleReceipt, hf,
                    HybridOcrStrategy.processComplexReceipt,
                    HybridOcrStrategy.recordAttempt, hm] at he2
            | error e2 =>
                constructor
                · intro r2 h2
                  simp [HybridOcrStrategy.processSimpleReceipt, hf,
                    HybridOcrStrategy.processComplexReceipt,
                    HybridOcrStrategy.recordAttempt, hm] at h2
                · intro e3 he3
                  simp [HybridOcrStrategy.processSimpleReceipt, hf,
                    HybridOcrStrategy.processComplexReceipt,
                    HybridOcrStrategy.recordAttempt, hm] at he3
                  subst he3
                  right; left
                  refine ⟨⟨e, rfl, ?_⟩, rfl, ?_⟩ <;>
                    simp [HybridOcrStrategy.processSimpleReceipt, hf,
                      HybridOcrStrategy.processComplexReceipt,
                      HybridOcrStrategy.recordAttempt, hm,
                      HybridOcrStrategy.groqFailAttempt]
  · rw [HybridOcrStrategy.extractReceipt, if_neg hc]
    cases cOut with
    | ok r =>
        constructor
        · intro r2 _
          simp [HybridOcrStrategy.processComplexReceipt,
            HybridOcrStrategy.recordAttempt, hm]
        · intro e he
          simp [HybridOcrStrategy.processComplexReceipt] at he
    | error e =>
        constructor
        · intro r2 h2
          simp [HybridOcrStrategy.processComplexReceipt] at h2
        · intro e2 he2
          simp [HybridOcrStrategy.processComplexReceipt] at he2
          subst he2
          right; right
          refine ⟨rfl, ?_, ?_⟩ <;>
            simp [HybridOcrStrategy.processComplexReceipt]

/-- Witness for C2 (amended), at the direct-precise failure input. -/
theorem HybridOcrStrategy.failure_attempt_characterization_witness :
    defaultConfig.enableMetrics = true ∧
      (∀ r, (HybridOcrStrategy.extractReceipt defaultConfig clsComplexLow
            (Except.error "groq unused") 0 (Except.error "claude boom") 5
            HybridOcrStrategy.initState).result = Except.ok r →
          HybridOcrStrategy.initState.attempts.length + 1
            ≤ (HybridOcrStrategy.extractReceipt defaultConfig clsComplexLow
                (Except.error "groq unused") 0 (Except.error "claude boom") 5
                HybridOcrStrategy.initState).state.attempts.length) ∧
      (∀ e, (HybridOcrStrategy.extractReceipt defaultConfig clsComplexLow
            (Except.error "groq unused") 0 (Except.error "claude boom") 5
            HybridOcrStrategy.initState).result = Except.error e →
        (Except.error (α := OcrResult) "groq unused" = Except.error e ∧
            defaultConfig.enableFallback = false ∧
            (HybridOcrStrategy.extractReceipt defaultConfig clsComplexLow
              (Except.error "groq unused") 0 (Except.error "claude boom") 5
              HybridOcrStrategy.initState).calls = [Provider.groq] ∧
            (HybridOcrStrategy.extractReceipt defaultConfig clsComplexLow
              (Except.error "groq unused") 0 (Except.error "claude boom") 5
              HybridOcrStrategy.initState).state.attempts
              = HybridOcrStrategy.initState.attempts
                ++ [HybridOcrStrategy.groqFailAttempt e]) ∨
          ((∃ e2, Except.error (α := OcrResult) "groq unused" = Except.error e2 ∧
              (HybridOcrStrategy.extractReceipt defaultConfig clsComplexLow
                (Except.error "groq unused") 0 (Except.error "claude boom") 5
                HybridOcrStrategy.initState).state.attempts
                = HybridOcrStrategy.initState.attempts
                  ++ [HybridOcrStrategy.groqFailAttempt e2]) ∧
            Except.error (α := OcrResult) "claude boom" = Except.error e ∧
            (HybridOcrStrategy.extractReceipt defaultConfig clsComplexLow
              (Except.error "groq unused") 0 (Except.error "claude boom") 5
              HybridOcrStrategy.initState).calls
              = [Provider.groq, Provider.claude]) ∨
          (Except.error (α := OcrResult) "claude boom" = Except.error e ∧
            (HybridOcrStrategy.extractReceipt defaultConfig clsComplexLow
              (Except.error "groq unused") 0 (Except.error "claude boom") 5
              HybridOcrStrategy.initState).calls = [Provider.claude] ∧
            (HybridOcrStrategy.extractReceipt defaultConfig clsComplexLow
              (Except.error "groq unused") 0 (Except.error "claude boom") 5
              HybridOcrStrategy.initState).state.attempts
              = HybridOcrStrategy.initState.attempts)) :=
  ⟨rfl,
    HybridOcrStrategy.failure_attempt_characterization defaultConfig clsComplexLow
      (Except.error "groq unused") 0 (Except.error "claude boom") 5
      HybridOcrStrategy.initState _ rfl rfl⟩

/-- C4 evaluation: one logical fallback request (cheap fails, fallback,
precise succeeds) under the default configuration bumps `totalReceipts`
to 2 — the source increments it once per recorded attempt, not once per
logical request — and a direct-precise failure bumps `complexCount`
without any attempt, so `simpleCount + complexCount = totalReceipts`
also fails outright there (1 versus 0). -/
theorem HybridOcrStrategy.totalReceipts_counts_attempts :
    (HybridOcrStrategy.extractReceipt defaultConfig clsSimpleHigh
        (Except.error "groq failed") 0 (Except.ok resultClaude) 5
        HybridOcrStrategy.initState).state.metrics.totalReceipts = 2 ∧
      (HybridOcrStrategy.extractReceipt defaultConfig clsSimpleHigh
        (Except.error "groq failed") 0 (Except.ok resultClaude) 5
        HybridOcrStrategy.initState).state.metrics.simpleCount = 1 ∧
      (HybridOcrStrategy.extractReceipt defaultConfig clsSimpleHigh
        (Except.error "groq failed") 0 (Except.ok resultClaude) 5
        HybridOcrStrategy.initState).state.metrics.complexCount = 1 ∧
      (HybridOcrStrategy.extractReceipt defaultConfig clsSimpleHigh
        (Except.error "groq failed") 0 (Except.ok resultClaude) 5
        HybridOcrStrategy.initState).state.metrics.claudeFallbackRate = 1 ∧
      (HybridOcrStrategy.extractReceipt defaultConfig clsSimpleHigh
        (Except.error "groq failed") 0 (Except.ok resultClaude) 5
        HybridOcrStrategy.initState).calls = [Provider.groq, Provider.claude] ∧
      (HybridOcrStrategy.extractReceipt defaultConfig clsComplexLow
        (Except.error "groq unused") 0 (Except.error "claude boom") 5
        HybridOcrStrategy.initState).state.metrics.complexCount = 1 ∧
      (HybridOcrStrategy.extractReceipt defaultConfig clsComplexLow
        (Except.error "groq unused") 0 (Except.error "claude boom") 5
        HybridOcrStrategy.initState).state.metrics.totalReceipts = 0 := by
  refine ⟨?_, ?_, ?_, ?_, ?_, ?_, ?_⟩ <;>
    norm_num [HybridOcrStrategy.extractReceipt,
      HybridOcrStrategy.processSimpleReceipt,
      HybridOcrStrategy.processComplexReceipt, HybridOcrStrategy.recordAttempt,
      HybridOcrStrategy.updateMetrics, defaultConfig, clsSimpleHigh,
      clsComplexLow, HybridOcrStrategy.initState, HybridOcrStrategy.initMetrics]

/-- C10: with `enableMetrics` false, every `extractReceipt` run leaves
the attempt history and `totalReceipts`, `totalCost` and all derived
rates untouched, yet still increments `simpleCount` once per groq
invocation and `complexCount` once per claude invocation of the run. -/
theorem HybridOcrStrategy.metrics_disabled_frame (cfg : HybridStrategyConfig)
    (cls : ReceiptClassification) (gOut : Except String OcrResult) (gd : Nat)
    (cOut : Except String OcrResult) (cd : Nat)
    (s : HybridOcrStrategy.State) (o : HybridOcrStrategy.RunOut)
    (ho : HybridOcrStrategy.extractReceipt cfg cls gOut gd cOut cd s = o)
    (hm : cfg.enableMetrics = false) :
    o.state.attempts = s.attempts ∧
      o.state.metrics.totalReceipts = s.metrics.totalReceipts ∧
      o.state.metrics.totalCost = s.metrics.totalCost ∧
      o.state.metrics.groqSuccessRate = s.metrics.groqSuccessRate ∧
      o.state.metrics.avgCostPerReceipt = s.metrics.avgCostPerReceipt ∧
      o.state.metrics.savingsVsClaudeOnly = s.metrics.savingsVsClaudeOnly ∧
      o.state.metrics.manualReviewRate = s.metrics.manualReviewRate ∧
      o.state.metrics.simpleCount
        = s.metrics.simpleCount + o.calls.count Provider.groq ∧
      o.state.metrics.complexCount
        = s.metrics.complexCount + o.calls.count Provider.claude := by
  subst ho
  have hrec : ∀ a st, HybridOcrStrategy.recordAttempt cfg a st = st := by
    intro a st
    simp [HybridOcrStrategy.recordAttempt, hm]
  rw [HybridOcrStrategy.extractReceipt]
  by_cases hc : (cls.isSimple && decide (cfg.simpleConfidenceThreshold ≤ cls.confidence)) = true
  · rw [if_pos hc]
    cases gOut with
    | ok r =>
        simp [HybridOcrStrategy.processSimpleReceipt, hrec, List.count_cons]
    | error e =>
        cases hf : cfg.enableFallback with
        | false =>
            simp [HybridOcrStrategy.processSimpleReceipt, hrec, hf,
              List.count_cons]
        | true =>
            cases cOut with
            | ok r =>
                simp [HybridOcrStrategy.processSimpleReceipt,
                  HybridOcrStrategy.processComplexReceipt, hrec, hf,
                  List.count_cons]
            | error e2 =>
                simp [HybridOcrStrategy.processSimpleReceipt,
                  HybridOcrStrategy.processComplexReceipt, hrec, hf,
                  List.count_cons]
  · rw [if_neg hc]
    cases cOut with
    | ok r =>
        simp [HybridOcrStrategy.processComplexReceipt, hrec, List.count_cons]
    | error e =>
        simp [HybridOcrStrategy.processComplexReceipt, hrec, List.count_cons]

/-- Witness for C10: one metrics-disabled run from the fresh state
routed to the cheap path, after which `simpleCount + complexCount = 1`
while `totalReceipts = 0`. -/
theorem HybridOcrStrategy.metrics_disabled_frame_witness :
    noMetricsConfig.enableMetrics = false ∧
      ((HybridOcrStrategy.extractReceipt noMetricsConfig clsSimpleHigh
            (Except.ok resultGroq) 3 (Except.ok resultClaude) 5
            HybridOcrStrategy.initState).state.attempts
          = HybridOcrStrategy.initState.attempts ∧
        (HybridOcrStrategy.extractReceipt noMetricsConfig clsSimpleHigh
            (Except.ok resultGroq) 3 (Except.ok resultClaude) 5
            HybridOcrStrategy.initState).state.metrics.totalReceipts
          = HybridOcrStrategy.initState.metrics.totalReceipts ∧
        (HybridOcrStrategy.extractReceipt noMetricsConfig clsSimpleHigh
            (Except.ok resultGroq) 3 (Except.ok resultClaude) 5
            HybridOcrStrategy.initState).state.metrics.totalCost
          = HybridOcrStrategy.initState.metrics.totalCost ∧
        (HybridOcrStrategy.extractReceipt noMetricsConfig clsSimpleHigh
            (Except.ok resultGroq) 3 (Except.ok resultClaude) 5
            HybridOcrStrategy.initState).state.metrics.groqSuccessRate
          = HybridOcrStrategy.initState.metrics.groqSuccessRate ∧
        (HybridOcrStrategy.extractReceipt noMetricsConfig clsSimpleHigh
            (Except.ok resultGroq) 3 (Except.ok resultClaude) 5
            HybridOcrStrategy.initState).state.metrics.avgCostPerReceipt
          = HybridOcrStrategy.initState.metrics.avgCostPerReceipt ∧
        (HybridOcrStrategy.extractReceipt noMetricsConfig clsSimpleHigh
            (Except.ok resultGroq) 3 (Except.ok resultClaude) 5
            HybridOcrStrategy.initState).state.metrics.savingsVsClaudeOnly
          = HybridOcrStrategy.initState.metrics.savingsVsClaudeOnly ∧
        (HybridOcrStrategy.extractReceipt noMetricsConfig clsSimpleHigh
            (Except.ok resultGroq) 3 (Except.ok resultClaude) 5
            HybridOcrStrategy.initState).state.metrics.manualReviewRate
          = HybridOcrStrategy.initState.metrics.manualReviewRate ∧
        (HybridOcrStrategy.extractReceipt noMetricsConfig clsSimpleHigh
            (Except.ok resultGroq) 3 (Except.ok resultClaude) 5
            HybridOcrStrategy.initState).state.metrics.simpleCount
          = HybridOcrStrategy.initState.metrics.simpleCount
            + (HybridOcrStrategy.extractReceipt noMetricsConfig clsSimpleHigh
                (Except.ok resultGroq) 3 (Except.ok resultClaude) 5
                HybridOcrStrategy.initState).calls.count Provider.groq ∧
        (HybridOcrStrategy.extractReceipt noMetricsConfig clsSimpleHigh
            (Except.ok resultGroq) 3 (Except.ok resultClaude) 5
            HybridOcrStrategy.initState).state.metrics.complexCount
          = HybridOcrStrategy.initState.metrics.complexCount
            + (HybridOcrStrategy.extractReceipt noMetricsConfig clsSimpleHigh
                (Except.ok resultGroq) 3 (Except.ok resultClaude) 5
                HybridOcrStrategy.initState).calls.count Provider.claude) ∧
      (HybridOcrStrategy.extractReceipt noMetricsConfig clsSimpleHigh
            (Except.ok resultGroq) 3 (Except.ok resultClaude) 5
            HybridOcrStrategy.initState).state.metrics.simpleCount
          + (HybridOcrStrategy.extractReceipt noMetricsConfig clsSimpleHigh
            (Except.ok resultGroq) 3 (Except.ok resultClaude) 5
            HybridOcrStrategy.initState).state.metrics.complexCount = 1 ∧
      (HybridOcrStrategy.extractReceipt noMetricsConfig clsSimpleHigh
          (Except.ok resultGroq) 3 (Except.ok resultClaude) 5
          HybridOcrStrategy.initState).state.metrics.totalReceipts = 0 :=
  ⟨rfl,
    HybridOcrStrategy.metrics_disabled_frame noMetricsConfig clsSimpleHigh
      (Except.ok resultGroq) 3 (Except.ok resultClaude) 5
      HybridOcrStrategy.initState _ rfl rfl,
    by
      norm_num [HybridOcrStrategy.extractReceipt,
        HybridOcrStrategy.processSimpleReceipt, HybridOcrStrategy.recordAttempt,
        noMetricsConfig, defaultConfig, clsSimpleHigh,
        HybridOcrStrategy.initState, HybridOcrStrategy.initMetrics],
    by
      norm_num [HybridOcrStrategy.extractReceipt,
        HybridOcrStrategy.processSimpleReceipt, HybridOcrStrategy.recordAttempt,
        noMetricsConfig, defaultConfig, clsSimpleHigh,
        HybridOcrStrategy.initState, HybridOcrStrategy.initMetrics]⟩
